import Mathlib

/-!
Shallow embedding of the FastAPI e-commerce backend (routers `products.py`
and `reviews.py`, model `reviews.py`) together with proofs about the product
listing/search query builder, the review-driven rating recomputation, and the
error-handling paths of the product and review endpoints.

Conventions of the embedding:
- SQL tables become Lean lists of records; an SQL `UPDATE ... WHERE` becomes a
  `List.map` touching the matching rows; `SELECT ... WHERE` becomes
  `List.filter` / `List.find?` / `List.any`.
- Python `float` values (prices, ratings) are modelled as exact rationals `ℚ`.
- Python truthiness (`if min_price:`, `if search:`, `if in_stock:`) is
  modelled explicitly by `truthy*` predicates: `None`, `0`, `0.0`, `False`
  and `""` are falsy.
- The PostgreSQL full-text machinery (`websearch_to_tsquery`, `@@`,
  `ts_rank_cd`) and the derivation of the stored search vector are database
  internals; they are abstracted as an `FtsEngine` parameter supplying a
  match predicate and a rank value per text-search configuration.
- `ORDER BY` with a total sort key is modelled by `List.insertionSort` with
  the corresponding comparator relation.
- A handler raising `HTTPException` becomes `Except HttpError`; an uncaught
  Python exception (e.g. `ValueError` from the grade validator) becomes an
  `HttpError` with status 500, mirroring the catch-all middleware in
  `app/main.py`.
- Transaction semantics: a handler either reaches its `commit` (returning the
  mutated database) or fails earlier, in which case the session is discarded
  and the database is unchanged; the `run_*` wrappers make this rollback
  explicit.
-/

/-- HTTP-style error: status code plus detail string (FastAPI `HTTPException`). -/
structure HttpError where
  status : Nat
  detail : String
  deriving DecidableEq, Repr

/-- Decidable equality of handler outcomes (needed to evaluate the embedded
endpoints on concrete inputs). -/
instance {ε α : Type} [DecidableEq ε] [DecidableEq α] :
    DecidableEq (Except ε α) := fun a b =>
  match a, b with
  | .ok x, .ok y =>
      if h : x = y then isTrue (by rw [h]) else isFalse (by simp [h])
  | .error x, .error y =>
      if h : x = y then isTrue (by rw [h]) else isFalse (by simp [h])
  | .ok _, .error _ => isFalse (by simp)
  | .error _, .ok _ => isFalse (by simp)

/-- Embeds Python's `str.strip()`: remove whitespace from both ends
(written structurally over the character list so that it evaluates). -/
def pyStrip (s : String) : String :=
  ⟨((s.data.dropWhile Char.isWhitespace).reverse.dropWhile Char.isWhitespace).reverse⟩

/-- Modelled from the spec (the file `app/models/categories.py` is not in the
sources): "Category: name, active flag". Only `id` and `is_active` are read by
the routers under verification. -/
structure Category where
  id : Nat
  name : String
  is_active : Bool
  deriving DecidableEq, Repr

/-- Modelled from the spec (the file `app/models/products.py` is not in the
sources): "Product: name, description, price (non-negative), stock
(non-negative integer), category reference, seller reference, derived
`rating` (0.0-5.0, default 0), active flag, search vector (derived from
name/description for full-text lookup)". The search vector `tsv` is kept as
an opaque string consumed by the full-text engine. -/
structure Product where
  id : Nat
  name : String
  description : String
  price : ℚ
  stock : Nat
  category_id : Nat
  seller_id : Nat
  rating : ℚ
  is_active : Bool
  tsv : String
  deriving DecidableEq, Repr

/-- Embeds `app/models/reviews.py` class `Review`: user reference, product
reference, optional comment, integer grade, active flag (the timestamp column
`comment_date` is not read by any code under verification and is omitted). -/
structure Review where
  id : Nat
  user_id : Nat
  product_id : Nat
  comment : Option String
  grade : Int
  is_active : Bool
  deriving DecidableEq, Repr

/-- The relational state read and written by the routers. -/
structure DB where
  categories : List Category
  products : List Product
  reviews : List Review
  deriving DecidableEq, Repr

/-- The two text-search configurations used by `get_all_products`:
`websearch_to_tsquery("english", ...)` and `websearch_to_tsquery("russian", ...)`. -/
inductive TsConfig where
  | english
  | russian
  deriving DecidableEq, Repr

/-- Abstraction of the PostgreSQL full-text internals (out of scope per the
spec: "the relational database itself performs filtering, ranking, and
aggregation"): `tsMatch cfg q tsv` models `tsv @@ websearch_to_tsquery(cfg, q)`,
`rank cfg q tsv` models `ts_rank_cd(tsv, websearch_to_tsquery(cfg, q))`, and
`derive name descr` models the stored generation of the search vector from
name/description. -/
structure FtsEngine where
  tsMatch : TsConfig → String → String → Bool
  rank : TsConfig → String → String → ℚ
  derive : String → String → String

/-- Python truthiness of an optional float (`None` and `0.0` are falsy). -/
def truthyF : Option ℚ → Bool
  | none => false
  | some v => v != 0

/-- Python truthiness of an optional int (`None` and `0` are falsy). -/
def truthyI : Option Nat → Bool
  | none => false
  | some v => v != 0

/-- Python truthiness of an optional bool (`None` and `False` are falsy). -/
def truthyB : Option Bool → Bool
  | none => false
  | some v => v

/-- Python truthiness of an optional string (`None` and `""` are falsy). -/
def truthyS : Option String → Bool
  | none => false
  | some v => v != ""

/-- Query parameters of `GET /products/` as received by `get_all_products`
(FastAPI has already enforced `page ≥ 1`, `1 ≤ page_size ≤ 100`,
`min_price, max_price ≥ 0`, `len(search) ≥ 1` at the framework boundary). -/
structure ProductQuery where
  page : Nat
  page_size : Nat
  category_id : Option Nat
  search : Option String
  min_price : Option ℚ
  max_price : Option ℚ
  in_stock : Option Bool
  seller_id : Option Nat
  deriving DecidableEq, Repr

/-- The list response of `GET /products/`. -/
structure ProductList where
  items : List Product
  total : Nat
  page : Nat
  page_size : Nat
  deriving DecidableEq, Repr

/-- The guard `if min_price and max_price and min_price > max_price:` of
`get_all_products` — note the Python truthiness: a supplied value of `0`
short-circuits the check. -/
def priceReject (q : ProductQuery) : Bool :=
  truthyF q.min_price && truthyF q.max_price &&
    decide (q.min_price.getD 0 > q.max_price.getD 0)

/-- The non-search filters of `get_all_products`, conjoined in source order:
the base predicate `ProductModel.is_active`, then (each under a truthiness
guard) category equality, price lower bound, price upper bound, the stock
condition (`stock > 0 if in_stock else stock == 0` — appended only when
`in_stock` is truthy), and seller equality. -/
def baseFilters (q : ProductQuery) (p : Product) : Bool :=
  p.is_active
    && (!truthyI q.category_id || p.category_id == q.category_id.getD 0)
    && (!truthyF q.min_price || decide (q.min_price.getD 0 ≤ p.price))
    && (!truthyF q.max_price || decide (p.price ≤ q.max_price.getD 0))
    && (!truthyB q.in_stock ||
        (if q.in_stock.getD false then decide (0 < p.stock) else p.stock == 0))
    && (!truthyI q.seller_id || p.seller_id == q.seller_id.getD 0)

/-- The effective search phrase: `if search:` then `search_value = search.strip()`
then `if search_value:`; `none` when the parameter is absent, empty, or
whitespace-only. -/
def activeSearch (q : ProductQuery) : Option String :=
  match q.search with
  | none => none
  | some s =>
      if s != "" then
        (if pyStrip s != "" then some (pyStrip s) else none)
      else none

/-- The full predicate set passed to `WHERE`: base filters, plus — when a
search phrase is active — `ts_match_any`, the OR of the english and russian
matches. -/
def fullFilters (engine : FtsEngine) (q : ProductQuery) (p : Product) : Bool :=
  match activeSearch q with
  | none => baseFilters q p
  | some sv =>
      baseFilters q p &&
        (engine.tsMatch .english sv p.tsv || engine.tsMatch .russian sv p.tsv)

/-- The rank column `greatest(ts_rank_cd(tsv, q_en), ts_rank_cd(tsv, q_ru))`. -/
def rankOf (engine : FtsEngine) (sv : String) (p : Product) : ℚ :=
  max (engine.rank .english sv p.tsv) (engine.rank .russian sv p.tsv)

/-- The comparator of `ORDER BY desc(rank), id`: `a` precedes `b` when `a`
ranks strictly higher, or ranks are tied and `a.id ≤ b.id`. -/
def searchLe (engine : FtsEngine) (sv : String) (a b : Product) : Bool :=
  decide (rankOf engine sv b < rankOf engine sv a) ||
    (decide (rankOf engine sv a = rankOf engine sv b) && decide (a.id ≤ b.id))

/-- The comparator of `ORDER BY ProductModel.id`. -/
def idLe (a b : Product) : Bool :=
  decide (a.id ≤ b.id)

/-- `OFFSET (page - 1) * page_size LIMIT page_size`. -/
def paginate (page page_size : Nat) (l : List Product) : List Product :=
  (l.drop ((page - 1) * page_size)).take page_size

/-- The ordered result set of the main query before pagination: the filtered
rows, ordered by `desc(rank), id` when a search phrase is active and by `id`
otherwise. -/
def listedProducts (engine : FtsEngine) (db : DB) (q : ProductQuery) :
    List Product :=
  match activeSearch q with
  | some sv =>
      List.insertionSort (fun a b => searchLe engine sv a b = true)
        (db.products.filter (fullFilters engine q))
  | none =>
      List.insertionSort (fun a b => idLe a b = true)
        (db.products.filter (fullFilters engine q))

/-- Embeds `get_all_products` of `app/routers/products.py`: reject with 400
when the (truthiness-guarded) `min_price > max_price` check fires; otherwise
return the paginated ordered items, the total count over the same predicate
set (`select(func.count()).select_from(ProductModel).where(*filters)`,
rebuilt after the search filter is appended), and the echoed pagination. -/
def get_all_products (engine : FtsEngine) (db : DB) (q : ProductQuery) :
    Except HttpError ProductList :=
  if priceReject q then
    .error ⟨400, "min_price не может быть больше max_price"⟩
  else
    .ok { items := paginate q.page q.page_size (listedProducts engine db q)
          total := db.products.countP (fullFilters engine q)
          page := q.page
          page_size := q.page_size }

/-- Modelled from the spec (the file `app/schemas.py` is not in the sources):
the `ProductCreate` request body is the "product fields + category_id"
(name, description, price, stock, category reference). -/
structure ProductCreate where
  name : String
  description : String
  price : ℚ
  stock : Nat
  category_id : Nat
  deriving DecidableEq, Repr

/-- Modelled from the spec (the file `app/schemas.py` is not in the sources):
the `ReviewCreate` request body carries the product reference, the optional
comment and the grade; `user_id` comes from the authenticated principal. -/
structure ReviewCreate where
  product_id : Nat
  comment : Option String
  grade : Int
  deriving DecidableEq, Repr

/-- The lookup `select(ProductModel).where(ProductModel.id == product_id,
ProductModel.is_active)` followed by `.first()`, shared by `get_product`,
`update_product` and `delete_product`. -/
def findActiveProduct (db : DB) (product_id : Nat) : Option Product :=
  db.products.find? (fun p => p.id == product_id && p.is_active)

/-- The existence check `select(CategoryModel).where(CategoryModel.id ==
category_id, CategoryModel.is_active)` followed by truthiness of `.first()`. -/
def activeCategoryExists (db : DB) (category_id : Nat) : Bool :=
  db.categories.any (fun c => c.id == category_id && c.is_active)

/-- The existence check on the target product of a review:
`select(ProductModel).where(ProductModel.id == ..., ProductModel.is_active)`. -/
def activeProductExists (db : DB) (product_id : Nat) : Bool :=
  db.products.any (fun p => p.id == product_id && p.is_active)

/-- Embeds `get_product` (`GET /products/{product_id}`): 404 when no active
product has the id; otherwise 400 when the product's category is missing or
inactive; otherwise the product. -/
def get_product (db : DB) (product_id : Nat) : Except HttpError Product :=
  match findActiveProduct db product_id with
  | none => .error ⟨404, "Product not found or inactive"⟩
  | some product =>
      if activeCategoryExists db product.category_id then
        .ok product
      else
        .error ⟨400, "Category not found or inactive"⟩

/-- The row values written by `update_product`'s
`update(ProductModel).values(**product.model_dump())`: the body fields are
assigned and the stored search vector is regenerated by the database from the
new name/description. -/
def applyUpdate (engine : FtsEngine) (product : ProductCreate) (p : Product) :
    Product :=
  { p with
    name := product.name
    description := product.description
    price := product.price
    stock := product.stock
    category_id := product.category_id
    tsv := engine.derive product.name product.description }

/-- Embeds `update_product` (`PUT /products/{product_id}`), acting as the
authenticated seller `current_user_id`: 404 when no active product has the
id, 403 when the acting seller is not the owner, 400 when the new category is
missing or inactive; otherwise `UPDATE products SET ... WHERE id = product_id`
with the body fields (the stored search vector is regenerated by the database
from the new name/description) followed by commit and refresh. -/
def update_product (engine : FtsEngine) (db : DB) (current_user_id : Nat)
    (product_id : Nat) (product : ProductCreate) :
    Except HttpError (DB × Product) :=
  match findActiveProduct db product_id with
  | none => .error ⟨404, "Product not found"⟩
  | some db_product =>
      if db_product.seller_id != current_user_id then
        .error ⟨403, "You can only update your own products"⟩
      else if !activeCategoryExists db product.category_id then
        .error ⟨400, "Category not found or inactive"⟩
      else
        .ok ({ db with
                products := db.products.map
                  (fun p => if p.id == product_id then
                    applyUpdate engine product p else p) },
             applyUpdate engine product db_product)

/-- Embeds `delete_product` (`DELETE /products/{product_id}`), acting as the
authenticated seller `current_user_id`: 404 when no active product has the
id, 403 when the acting seller is not the owner; otherwise the soft delete
`UPDATE products SET is_active = false WHERE id = product_id` followed by
commit and refresh. -/
def delete_product (db : DB) (current_user_id : Nat) (product_id : Nat) :
    Except HttpError (DB × Product) :=
  match findActiveProduct db product_id with
  | none => .error ⟨404, "Product not found or innactive"⟩
  | some product =>
      if product.seller_id != current_user_id then
        .error ⟨403, "You can only delete your own proucts"⟩
      else
        .ok ({ db with
                products := db.products.map
                  (fun p => if p.id == product_id then
                    { p with is_active := false } else p) },
             { product with is_active := false })

/-- Embeds `Review.validate_grade` of `app/models/reviews.py`: the
`@validates("grade")` hook raises `ValueError` unless `1 <= value <= 5`,
so the attribute assignment never stores an out-of-range grade. -/
def validate_grade (value : Int) : Except String Int :=
  if !(decide (1 ≤ value) && decide (value ≤ 5)) then
    .error "Grade must be between 1 and 5"
  else
    .ok value

/-- The rows aggregated by `select(func.avg(ReviewModel.grade)).where(
ReviewModel.product_id == product_id, ReviewModel.is_active)`: the grades of
the currently-active reviews of the product. -/
def activeGradesOf (reviews : List Review) (product_id : Nat) : List ℚ :=
  (reviews.filter (fun r => r.product_id == product_id && r.is_active)).map
    (fun r => (r.grade : ℚ))

/-- SQL `AVG` of the active grades: `NULL` (`none`) when no row matches. -/
def avg_grade (reviews : List Review) (product_id : Nat) : Option ℚ :=
  if (activeGradesOf reviews product_id).isEmpty then none
  else some ((activeGradesOf reviews product_id).sum /
    (activeGradesOf reviews product_id).length)

/-- Embeds `update_product_rating` of `app/routers/reviews.py`: compute
`result.scalar() or 0.0`, fetch the product by primary key (`db.get` finds
the row whether active or not; `none` — an `AttributeError` in the source —
only when the row is physically absent) and store the new rating. -/
def update_product_rating (db : DB) (product_id : Nat) : Option DB :=
  if db.products.any (fun p => p.id == product_id) then
    some { db with
      products := db.products.map
        (fun p => if p.id == product_id then
          { p with rating := (avg_grade db.reviews product_id).getD 0 } else p) }
  else
    none

/-- Embeds `create_review` (`POST /reviews/`), acting as the authenticated
buyer `current_user_id`: 400 when the target product is missing or inactive;
constructing `ReviewModel(**review.model_dump(), user_id=...)` runs the grade
validator, whose `ValueError` escapes to the catch-all middleware (500); the
pending insert is visible to the rating query (session autoflush — the
session factory `app/db_depends.py` is not in the sources; modelled from the
spec: the mean includes the review just created); then
`update_product_rating` stores the new mean and the transaction commits. -/
def create_review (db : DB) (current_user_id : Nat) (review : ReviewCreate)
    (new_id : Nat) : Except HttpError (DB × Review) :=
  if !activeProductExists db review.product_id then
    .error ⟨400, "Product not found of innactive"⟩
  else
    match validate_grade review.grade with
    | .error msg => .error ⟨500, msg⟩
    | .ok grade =>
        match update_product_rating
            { db with reviews := db.reviews ++
                [{ id := new_id, user_id := current_user_id,
                   product_id := review.product_id, comment := review.comment,
                   grade := grade, is_active := true }] }
            review.product_id with
        | none => .error ⟨500, "AttributeError: product row absent"⟩
        | some db2 =>
            .ok (db2,
              { id := new_id, user_id := current_user_id,
                product_id := review.product_id, comment := review.comment,
                grade := grade, is_active := true })

/-- Embeds `delete_review` (`DELETE /reviews/{review_id}`), acting as the
authenticated user `current_user_id`: 404 when no active review has the id,
403 when the review is not the caller's own; otherwise the soft delete
`UPDATE reviews SET is_active = false WHERE id = review_id`, then
`update_product_rating` over the remaining active reviews, then commit and
refresh. -/
def delete_review (db : DB) (current_user_id : Nat) (review_id : Nat) :
    Except HttpError (DB × Review) :=
  match db.reviews.find? (fun r => r.id == review_id && r.is_active) with
  | none => .error ⟨404, "Review not found or innactive"⟩
  | some review =>
      if review.user_id != current_user_id then
        .error ⟨403, "You don't have permission to delete this review."⟩
      else
        match update_product_rating
            { db with
              reviews := db.reviews.map
                (fun r => if r.id == review_id then
                  { r with is_active := false } else r) }
            review.product_id with
        | none => .error ⟨500, "AttributeError: product row absent"⟩
        | some db2 => .ok (db2, { review with is_active := false })

/-- Transaction boundary of `create_review`: on any failure before the commit
the session is rolled back and the stored state is unchanged. -/
def run_create_review (db : DB) (current_user_id : Nat) (review : ReviewCreate)
    (new_id : Nat) : DB × Except HttpError Review :=
  match create_review db current_user_id review new_id with
  | .ok (db2, rv) => (db2, .ok rv)
  | .error e => (db, .error e)

/-- Transaction boundary of `delete_review`: on any failure before the commit
the session is rolled back and the stored state is unchanged. -/
def run_delete_review (db : DB) (current_user_id : Nat) (review_id : Nat) :
    DB × Except HttpError Review :=
  match delete_review db current_user_id review_id with
  | .ok (db2, rv) => (db2, .ok rv)
  | .error e => (db, .error e)

/-- Transaction boundary of `update_product`. -/
def run_update_product (engine : FtsEngine) (db : DB) (current_user_id : Nat)
    (product_id : Nat) (product : ProductCreate) : DB × Except HttpError Product :=
  match update_product engine db current_user_id product_id product with
  | .ok (db2, p) => (db2, .ok p)
  | .error e => (db, .error e)

/-- Transaction boundary of `delete_product`. -/
def run_delete_product (db : DB) (current_user_id : Nat) (product_id : Nat) :
    DB × Except HttpError Product :=
  match delete_product db current_user_id product_id with
  | .ok (db2, p) => (db2, .ok p)
  | .error e => (db, .error e)

/-- Specification-side definition of the rating invariant, written from the
spec's words: "the arithmetic mean of `grade` over all currently-active
Reviews for that product, or 0 when none exist". Compared against the
code-side `avg_grade`/`update_product_rating` path. -/
def ratingSpec (reviews : List Review) (product_id : Nat) : ℚ :=
  if (activeGradesOf reviews product_id).length = 0 then 0
  else (activeGradesOf reviews product_id).sum /
    (activeGradesOf reviews product_id).length

/-- Projection of a listing outcome onto the reported `total`. -/
def resultTotal : Except HttpError ProductList → Option Nat
  | .ok r => some r.total
  | .error _ => none

/-- Concrete full-text engine used to instantiate the generic theorems:
a vector matches when it equals the query phrase, with rank 1. -/
def engW : FtsEngine where
  tsMatch := fun _ sv tsv => sv == tsv
  rank := fun _ sv tsv => if sv == tsv then 1 else 0
  derive := fun name descr => name ++ " " ++ descr

/-- Concrete active category. -/
def catW : Category :=
  { id := 1, name := "books", is_active := true }

/-- Concrete active product owned by seller 7, price 100, stock 5. -/
def prodW : Product :=
  { id := 1, name := "anna", description := "novel", price := 100, stock := 5,
    category_id := 1, seller_id := 7, rating := 0, is_active := true,
    tsv := "anna novel" }

/-- Concrete database: one active category, one active product, no reviews. -/
def dbW : DB :=
  { categories := [catW], products := [prodW], reviews := [] }

/-- Listing request with every optional parameter absent. -/
def qNone : ProductQuery :=
  { page := 1, page_size := 20, category_id := none, search := none,
    min_price := none, max_price := none, in_stock := none, seller_id := none }

/-- Listing request searching for the phrase "anna novel". -/
def q3 : ProductQuery :=
  { qNone with search := some "anna novel" }

/-- Listing request with `min_price = 1` and `max_price = 0`: both bounds are
supplied and the lower exceeds the upper, but `max_price` is falsy. -/
def q5 : ProductQuery :=
  { qNone with min_price := some 1, max_price := some 0 }

/-- Listing request with `min_price = 2` and `max_price = 1` (both truthy). -/
def q5w : ProductQuery :=
  { qNone with min_price := some 2, max_price := some 1 }

/-- Listing request with `in_stock = false`. -/
def q6 : ProductQuery :=
  { qNone with in_stock := some false }

/-- Review body for product 1 with grade 4. -/
def rcC1 : ReviewCreate :=
  { product_id := 1, comment := none, grade := 4 }

/-- Review body for product 1 with the out-of-range grade 6. -/
def rcBad : ReviewCreate :=
  { product_id := 1, comment := none, grade := 6 }

/-- The review stored by `create_review dbW 7 rcC1 1`. -/
def rvC1 : Review :=
  { id := 1, user_id := 7, product_id := 1, comment := none, grade := 4,
    is_active := true }

/-- The database after `create_review dbW 7 rcC1 1`: the review is stored and
the product's rating is the mean of the single active grade 4. -/
def dbC1 : DB :=
  { categories := [catW],
    products := [{ prodW with rating := ratingSpec [rvC1] 1 }],
    reviews := [rvC1] }

/-- The soft-deleted form of `rvC1`. -/
def rvC2 : Review :=
  { rvC1 with is_active := false }

/-- Database whose only product is active but whose category is inactive. -/
def db8 : DB :=
  { categories := [{ catW with is_active := false }], products := [prodW],
    reviews := [] }

/-- Update body targeting category 1. -/
def pcW : ProductCreate :=
  { name := "anna2", description := "novel2", price := 50, stock := 3,
    category_id := 1 }

/-- A passing base-filter row is active: the first predicate of the filter
list is `ProductModel.is_active`. -/
lemma baseFilters_active (q : ProductQuery) (p : Product)
    (h : baseFilters q p = true) : p.is_active = true := by
  unfold baseFilters at h
  simp only [Bool.and_eq_true] at h
  exact h.1.1.1.1.1

/-- A row passing the full predicate set is active. -/
lemma fullFilters_active (engine : FtsEngine) (q : ProductQuery) (p : Product)
    (h : fullFilters engine q p = true) : p.is_active = true := by
  unfold fullFilters at h
  cases hact : activeSearch q <;> rw [hact] at h
  · exact baseFilters_active q p h
  · simp only [Bool.and_eq_true] at h
    exact baseFilters_active q p h.1

/-- A whitespace-only search parameter yields no active search phrase. -/
lemma activeSearch_strip_empty (q : ProductQuery) (s : String)
    (hs : q.search = some s) (ht : pyStrip s = "") : activeSearch q = none := by
  simp [activeSearch, hs, ht]

/-- Claim C10: a search string consisting only of whitespace behaves exactly
like an absent search parameter — no full-text predicate, no rank, ordering
by product id — so `get_all_products` returns equal results for the two
calls. -/
theorem whitespace_search_equals_no_search (engine : FtsEngine) (db : DB)
    (q : ProductQuery) (s : String) (hs : q.search = some s)
    (ht : pyStrip s = "") :
    get_all_products engine db q =
      get_all_products engine db { q with search := none } := by
  have hact : activeSearch q = none := activeSearch_strip_empty q s hs ht
  have hact2 : activeSearch { q with search := none } = none := rfl
  have hfull : fullFilters engine q = fullFilters engine { q with search := none } := by
    funext p
    unfold fullFilters
    rw [hact, hact2]
    rfl
  have hlist : listedProducts engine db q =
      listedProducts engine db { q with search := none } := by
    unfold listedProducts
    rw [hact, hact2, hfull]
  unfold get_all_products
  rw [hlist, hfull]
  rfl

/-- Witness for C10: searching for three spaces equals not searching. -/
theorem whitespace_search_witness :
    get_all_products engW dbW { qNone with search := some "   " } =
      get_all_products engW dbW qNone :=
  (whitespace_search_equals_no_search engW dbW
    { qNone with search := some "   " } "   " rfl (by decide)).trans rfl

/-- Counterexample to C5 as stated: with `min_price = 1` and `max_price = 0`
both bounds are supplied and `min_price > max_price`, yet the request is not
rejected — the truthiness guard `if min_price and max_price and ...` is
short-circuited by the falsy `0`, and the listing proceeds (the upper-bound
filter is dropped as well, so the price-100 product is returned). -/
theorem price_check_skipped_when_max_zero :
    q5.min_price = some 1 ∧ q5.max_price = some 0 ∧ (0 : ℚ) < 1 ∧
      get_all_products engW dbW q5 =
        .ok { items := [prodW], total := 1, page := 1, page_size := 20 } := by
  refine ⟨rfl, rfl, by norm_num, by decide⟩

/-- Claim C5 (amended): when both `min_price` and `max_price` are supplied,
both are nonzero (truthy), and `min_price > max_price`, the request is
rejected with a 400 validation error before any query is executed (the
result is the error for every database state). -/
theorem price_validation_rejects (engine : FtsEngine) (db : DB)
    (q : ProductQuery) (v w : ℚ) (hv : q.min_price = some v)
    (hw : q.max_price = some w) (hv0 : v ≠ 0) (hw0 : w ≠ 0) (hvw : w < v) :
    get_all_products engine db q =
      .error ⟨400, "min_price не может быть больше max_price"⟩ := by
  have hpr : priceReject q = true := by
    simp only [priceReject, truthyF, hv, hw, Option.getD_some, Bool.and_eq_true,
      bne_iff_ne, ne_eq, decide_eq_true_eq]
    exact ⟨⟨hv0, hw0⟩, hvw⟩
  unfold get_all_products
  rw [hpr]
  rfl

/-- Witness for the amended C5: `min_price = 2 > max_price = 1` is rejected. -/
theorem price_validation_rejects_witness :
    get_all_products engW dbW q5w =
      .error ⟨400, "min_price не может быть больше max_price"⟩ :=
  price_validation_rejects engW dbW q5w 2 1 rfl rfl
    (by norm_num) (by norm_num) (by norm_num)

/-- Evaluation for C6 at the failing input: the query parameter documents
`in_stock=false` as "only items without stock" and the source carries the
dead branch `ProductModel.stock == 0`, but under `if in_stock:` a false value
appends no filter, so the active product with stock 5 is returned. -/
theorem in_stock_false_filter_dropped :
    prodW.stock = 5 ∧ q6.in_stock = some false ∧
      get_all_products engW dbW q6 =
        .ok { items := [prodW], total := 1, page := 1, page_size := 20 } := by
  refine ⟨rfl, rfl, by decide⟩

/-- Claim C4: the reported `total` equals the number of rows satisfying the
full predicate set (which implies activity), and it does not depend on the
`page` and `page_size` arguments. -/
theorem total_count_independent_of_pagination (engine : FtsEngine) (db : DB)
    (q : ProductQuery) (page page_size : Nat) (hpr : priceReject q = false) :
    resultTotal (get_all_products engine db
        { q with page := page, page_size := page_size }) =
      some (db.products.countP (fullFilters engine q)) ∧
    ∀ p, fullFilters engine q p = true → p.is_active = true := by
  constructor
  · have hpr' : priceReject { q with page := page, page_size := page_size } = false := hpr
    unfold get_all_products
    rw [hpr']
    rfl
  · exact fun p hp => fullFilters_active engine q p hp

/-- Witness for C4: with page 3 of size 7 the reported total still counts the
whole filtered universe. -/
theorem total_count_witness :
    resultTotal (get_all_products engW dbW
        { qNone with page := 3, page_size := 7 }) =
      some (dbW.products.countP (fullFilters engW qNone)) ∧
    ∀ p, fullFilters engW qNone p = true → p.is_active = true :=
  total_count_independent_of_pagination engW dbW qNone 3 7 rfl

/-- The search comparator, unfolded. -/
lemma searchLe_iff (engine : FtsEngine) (sv : String) (a b : Product) :
    searchLe engine sv a b = true ↔
      (rankOf engine sv b < rankOf engine sv a ∨
        (rankOf engine sv a = rankOf engine sv b ∧ a.id ≤ b.id)) := by
  simp [searchLe]

/-- The search comparator is total. -/
lemma searchLe_total (engine : FtsEngine) (sv : String) (a b : Product) :
    searchLe engine sv a b = true ∨ searchLe engine sv b a = true := by
  rcases lt_trichotomy (rankOf engine sv a) (rankOf engine sv b) with h | h | h
  · exact Or.inr ((searchLe_iff engine sv b a).mpr (Or.inl h))
  · rcases Nat.le_total a.id b.id with hid | hid
    · exact Or.inl ((searchLe_iff engine sv a b).mpr (Or.inr ⟨h, hid⟩))
    · exact Or.inr ((searchLe_iff engine sv b a).mpr (Or.inr ⟨h.symm, hid⟩))
  · exact Or.inl ((searchLe_iff engine sv a b).mpr (Or.inl h))

/-- The search comparator is transitive. -/
lemma searchLe_trans (engine : FtsEngine) (sv : String) (a b c : Product)
    (hab : searchLe engine sv a b = true) (hbc : searchLe engine sv b c = true) :
    searchLe engine sv a c = true := by
  rw [searchLe_iff] at hab hbc ⊢
  rcases hab with hab | ⟨hab, haid⟩
  · rcases hbc with hbc | ⟨hbc, _⟩
    · exact Or.inl (hbc.trans hab)
    · exact Or.inl (by rw [← hbc]; exact hab)
  · rcases hbc with hbc | ⟨hbc, hbid⟩
    · exact Or.inl (by rw [hab]; exact hbc)
    · exact Or.inr ⟨hab.trans hbc, haid.trans hbid⟩

/-- The id comparator, unfolded. -/
lemma idLe_iff (a b : Product) : idLe a b = true ↔ a.id ≤ b.id := by
  simp [idLe]

/-- Claim C3: when a non-empty trimmed search phrase is supplied, the result
page is cut from `listedProducts`, whose members are exactly the rows passing
the non-search filters for which at least one of the two language
interpretations matches, ordered by the greater of the two interpretations'
ranks descending with ties broken by id ascending; when search is absent the
members are exactly the rows passing the filters, ordered by id ascending. -/
theorem search_filter_and_ordering (engine : FtsEngine) (db : DB)
    (q : ProductQuery) (hpr : priceReject q = false) :
    (∀ s, q.search = some s → pyStrip s ≠ "" →
      get_all_products engine db q = .ok
        { items := paginate q.page q.page_size (listedProducts engine db q),
          total := db.products.countP (fullFilters engine q),
          page := q.page, page_size := q.page_size } ∧
      (∀ p, p ∈ listedProducts engine db q ↔
        (p ∈ db.products ∧ baseFilters q p = true ∧
          (engine.tsMatch .english (pyStrip s) p.tsv
            || engine.tsMatch .russian (pyStrip s) p.tsv) = true)) ∧
      (listedProducts engine db q).Pairwise (fun a b =>
        rankOf engine (pyStrip s) b < rankOf engine (pyStrip s) a ∨
          (rankOf engine (pyStrip s) a = rankOf engine (pyStrip s) b ∧
            a.id ≤ b.id))) ∧
    (q.search = none →
      get_all_products engine db q = .ok
        { items := paginate q.page q.page_size (listedProducts engine db q),
          total := db.products.countP (fullFilters engine q),
          page := q.page, page_size := q.page_size } ∧
      (∀ p, p ∈ listedProducts engine db q ↔
        (p ∈ db.products ∧ baseFilters q p = true)) ∧
      (listedProducts engine db q).Pairwise (fun a b => a.id ≤ b.id)) := by
  have hok : get_all_products engine db q = .ok
      { items := paginate q.page q.page_size (listedProducts engine db q),
        total := db.products.countP (fullFilters engine q),
        page := q.page, page_size := q.page_size } := by
    unfold get_all_products
    rw [hpr]
    rfl
  constructor
  · intro s hs hne
    have hs0 : s ≠ "" := fun h => hne (by rw [h]; rfl)
    have hact : activeSearch q = some (pyStrip s) := by
      unfold activeSearch
      rw [hs]
      simp [hs0, hne]
    have hff : ∀ p, fullFilters engine q p =
        (baseFilters q p &&
          (engine.tsMatch .english (pyStrip s) p.tsv
            || engine.tsMatch .russian (pyStrip s) p.tsv)) := by
      intro p
      unfold fullFilters
      rw [hact]
    have hlp : listedProducts engine db q =
        List.insertionSort (fun a b => searchLe engine (pyStrip s) a b = true)
          (db.products.filter (fullFilters engine q)) := by
      unfold listedProducts
      rw [hact]
    refine ⟨hok, ?_, ?_⟩
    · intro p
      rw [hlp,
        (List.perm_insertionSort
          (fun a b => searchLe engine (pyStrip s) a b = true) _).mem_iff,
        List.mem_filter, hff p, Bool.and_eq_true]
    · haveI : IsTotal Product (fun a b => searchLe engine (pyStrip s) a b = true) :=
        ⟨searchLe_total engine (pyStrip s)⟩
      haveI : IsTrans Product (fun a b => searchLe engine (pyStrip s) a b = true) :=
        ⟨searchLe_trans engine (pyStrip s)⟩
      have hsorted := List.sorted_insertionSort
        (fun a b => searchLe engine (pyStrip s) a b = true)
        (db.products.filter (fullFilters engine q))
      rw [hlp]
      exact List.Pairwise.imp
        (fun hab => (searchLe_iff engine (pyStrip s) _ _).mp hab) hsorted
  · intro hs
    have hact : activeSearch q = none := by
      unfold activeSearch
      rw [hs]
    have hff : ∀ p, fullFilters engine q p = baseFilters q p := by
      intro p
      unfold fullFilters
      rw [hact]
    have hlp : listedProducts engine db q =
        List.insertionSort (fun a b => idLe a b = true)
          (db.products.filter (fullFilters engine q)) := by
      unfold listedProducts
      rw [hact]
    refine ⟨hok, ?_, ?_⟩
    · intro p
      rw [hlp,
        (List.perm_insertionSort (fun a b => idLe a b = true) _).mem_iff,
        List.mem_filter, hff p]
    · haveI : IsTotal Product (fun a b => idLe a b = true) :=
        ⟨fun a b => by
          rw [idLe_iff, idLe_iff]
          exact Nat.le_total a.id b.id⟩
      haveI : IsTrans Product (fun a b => idLe a b = true) :=
        ⟨fun a b c hab hbc => by
          rw [idLe_iff] at hab hbc ⊢
          exact hab.trans hbc⟩
      have hsorted := List.sorted_insertionSort (fun a b => idLe a b = true)
        (db.products.filter (fullFilters engine q))
      rw [hlp]
      exact List.Pairwise.imp (fun hab => (idLe_iff _ _).mp hab) hsorted

/-- Witness for C3: searching the one-product database for its exact vector
returns that product. -/
theorem search_filter_witness :
    get_all_products engW dbW q3 =
      .ok { items := [prodW], total := 1, page := 1, page_size := 20 } := by
  have h :=
    ((search_filter_and_ordering engW dbW q3 rfl).1 "anna novel" rfl
      (by decide)).1
  exact h.trans (by decide)

/-- `result.scalar() or 0.0` agrees with the spec-side mean-or-zero. -/
lemma avg_grade_getD (rs : List Review) (pid : Nat) :
    (avg_grade rs pid).getD 0 = ratingSpec rs pid := by
  unfold avg_grade ratingSpec
  cases h : activeGradesOf rs pid with
  | nil => simp [h]
  | cons a t => simp [h]

/-- What a successful `update_product_rating` stores: reviews and categories
untouched, and every product row with the given id now carries the
mean-or-zero of the active grades. -/
lemma update_product_rating_some (db : DB) (pid : Nat) (db' : DB)
    (h : update_product_rating db pid = some db') :
    db'.reviews = db.reviews ∧ db'.categories = db.categories ∧
    ∀ p ∈ db'.products, p.id = pid → p.rating = ratingSpec db.reviews pid := by
  unfold update_product_rating at h
  split at h
  · obtain rfl := Option.some.inj h
    refine ⟨rfl, rfl, ?_⟩
    intro p hp hpid
    obtain ⟨a, _, rfl⟩ := List.mem_map.mp hp
    by_cases hid : (a.id == pid) = true
    · rw [if_pos hid]
      exact avg_grade_getD db.reviews pid
    · rw [if_neg hid] at hpid ⊢
      exact absurd (beq_iff_eq.mpr hpid) hid
  · exact absurd h (by simp)

/-- An in-range grade passes the validator unchanged. -/
lemma validate_grade_in_range (g : Int) (h1 : 1 ≤ g) (h5 : g ≤ 5) :
    validate_grade g = .ok g := by
  unfold validate_grade
  rw [if_neg]
  simp [h1, h5]

/-- An out-of-range grade raises `ValueError`. -/
lemma validate_grade_out_of_range (g : Int) (h : g < 1 ∨ 5 < g) :
    validate_grade g = .error "Grade must be between 1 and 5" := by
  unfold validate_grade
  rw [if_pos]
  rcases h with h | h <;> simp <;> omega

/-- A validator success returns the assigned value itself. -/
lemma validate_grade_ok (v g : Int) (h : validate_grade v = .ok g) : g = v := by
  unfold validate_grade at h
  split at h
  · exact absurd h (by simp)
  · exact (Except.ok.inj h).symm

/-- What a successful `create_review` stores: the new active review, appended
to the review table, with the product's rating recomputed over the new review
set (which contains the just-created review). -/
lemma create_review_ok (db : DB) (uid : Nat) (rc : ReviewCreate) (nid : Nat)
    (db' : DB) (rv : Review)
    (h : create_review db uid rc nid = .ok (db', rv)) :
    rv = { id := nid, user_id := uid, product_id := rc.product_id,
           comment := rc.comment, grade := rc.grade, is_active := true } ∧
    db'.reviews = db.reviews ++ [rv] ∧
    ∀ p ∈ db'.products, p.id = rc.product_id →
      p.rating = ratingSpec db'.reviews rc.product_id := by
  unfold create_review at h
  split at h
  · exact absurd h (by simp)
  · split at h
    next msg hv => exact absurd h (by simp)
    next g hv =>
      split at h
      next hu => exact absurd h (by simp)
      next db2 hu =>
        obtain rfl := validate_grade_ok rc.grade g hv
        have hpair := Except.ok.inj h
        injection hpair with hdb hrv
        subst hdb
        subst hrv
        obtain ⟨hrev, _, hrat⟩ := update_product_rating_some _ _ _ hu
        refine ⟨rfl, hrev, ?_⟩
        intro p hp hpid
        rw [hrev]
        exact hrat p hp hpid

/-- What a successful `delete_review` stores: the matching review rows are
soft-deleted and the product's rating is recomputed over the new review set
(which no longer counts the just-deleted review). -/
lemma delete_review_ok (db : DB) (uid : Nat) (rid : Nat) (db' : DB)
    (rv : Review) (h : delete_review db uid rid = .ok (db', rv)) :
    rv.is_active = false ∧
    (∀ r ∈ db'.reviews, r.id = rid → r.is_active = false) ∧
    ∀ p ∈ db'.products, p.id = rv.product_id →
      p.rating = ratingSpec db'.reviews rv.product_id := by
  unfold delete_review at h
  split at h
  next hf => exact absurd h (by simp)
  next review hf =>
    split at h
    · exact absurd h (by simp)
    · split at h
      next hu => exact absurd h (by simp)
      next db2 hu =>
        have hpair := Except.ok.inj h
        injection hpair with hdb hrv
        subst hdb
        subst hrv
        obtain ⟨hrev, _, hrat⟩ := update_product_rating_some _ _ _ hu
        refine ⟨rfl, ?_, ?_⟩
        · intro r hr hrid
          rw [hrev] at hr
          obtain ⟨a, _, rfl⟩ := List.mem_map.mp hr
          by_cases hid : (a.id == rid) = true
          · rw [if_pos hid]
          · rw [if_neg hid] at hrid ⊢
            exact absurd (beq_iff_eq.mpr hrid) hid
        · intro p hp hpid
          rw [hrev]
          exact hrat p hp hpid

/-- Claim C1: after a successful `create_review` the stored rating of the
target product equals the arithmetic mean of the grades of its currently-
active reviews (the just-created review, which is active and appended to the
review table, included); after a successful `delete_review` the rating equals
the same mean over the post-deletion review set, in which every review with
the deleted id is inactive (hence excluded from the mean, which is 0 when no
active review remains — `ratingSpec` is mean-or-zero by definition). -/
theorem review_rating_invariant :
    (∀ db uid rc nid db' rv, create_review db uid rc nid = .ok (db', rv) →
      rv ∈ db'.reviews ∧ rv.is_active = true ∧ rv.product_id = rc.product_id ∧
      db'.reviews = db.reviews ++ [rv] ∧
      ∀ p ∈ db'.products, p.id = rc.product_id →
        p.rating = ratingSpec db'.reviews rc.product_id) ∧
    (∀ db uid rid db' rv, delete_review db uid rid = .ok (db', rv) →
      rv.is_active = false ∧
      (∀ r ∈ db'.reviews, r.id = rid → r.is_active = false) ∧
      ∀ p ∈ db'.products, p.id = rv.product_id →
        p.rating = ratingSpec db'.reviews rv.product_id) := by
  constructor
  · intro db uid rc nid db' rv h
    obtain ⟨hrv, hrevs, hrat⟩ := create_review_ok db uid rc nid db' rv h
    refine ⟨?_, ?_, ?_, hrevs, hrat⟩
    · rw [hrevs]
      simp
    · rw [hrv]
    · rw [hrv]
  · intro db uid rid db' rv h
    exact delete_review_ok db uid rid db' rv h

/-- Witness for C1: creating a grade-4 review on the fresh one-product
database stores the review and sets the product's rating to the mean of the
active grades. -/
theorem review_rating_invariant_witness :
    rvC1 ∈ dbC1.reviews ∧ rvC1.is_active = true ∧ rvC1.product_id = 1 ∧
    dbC1.reviews = dbW.reviews ++ [rvC1] ∧
    ∀ p ∈ dbC1.products, p.id = 1 → p.rating = ratingSpec dbC1.reviews 1 :=
  review_rating_invariant.1 dbW 7 rcC1 1 dbC1 rvC1 rfl

/-- Claim C2: each review mutation together with its rating recomputation is
atomic. On any failure the transaction rolls back and the database is exactly
the prior state (prior rating and prior review set); on success the review
change and the recomputed rating are both present in the committed state —
there is no state with one but not the other. -/
theorem review_mutation_atomic :
    (∀ db uid rc nid,
      (∀ e, (run_create_review db uid rc nid).2 = .error e →
        (run_create_review db uid rc nid).1 = db) ∧
      (∀ rv, (run_create_review db uid rc nid).2 = .ok rv →
        (run_create_review db uid rc nid).1.reviews = db.reviews ++ [rv] ∧
        ∀ p ∈ (run_create_review db uid rc nid).1.products,
          p.id = rc.product_id →
          p.rating =
            ratingSpec (run_create_review db uid rc nid).1.reviews
              rc.product_id)) ∧
    (∀ db uid rid,
      (∀ e, (run_delete_review db uid rid).2 = .error e →
        (run_delete_review db uid rid).1 = db) ∧
      (∀ rv, (run_delete_review db uid rid).2 = .ok rv →
        (∀ r ∈ (run_delete_review db uid rid).1.reviews, r.id = rid →
          r.is_active = false) ∧
        ∀ p ∈ (run_delete_review db uid rid).1.products,
          p.id = rv.product_id →
          p.rating =
            ratingSpec (run_delete_review db uid rid).1.reviews
              rv.product_id)) := by
  constructor
  · intro db uid rc nid
    cases hc : create_review db uid rc nid with
    | error e0 =>
        have hrun : run_create_review db uid rc nid = (db, .error e0) := by
          unfold run_create_review
          rw [hc]
        constructor
        · intro e _
          rw [hrun]
        · intro rv hrv
          rw [hrun] at hrv
          exact absurd hrv (by simp)
    | ok pr =>
        obtain ⟨db2, rv0⟩ := pr
        have hrun : run_create_review db uid rc nid = (db2, .ok rv0) := by
          unfold run_create_review
          rw [hc]
        constructor
        · intro e he
          rw [hrun] at he
          exact absurd he (by simp)
        · intro rv hrv
          rw [hrun] at hrv
          obtain rfl := Except.ok.inj hrv
          obtain ⟨_, hrevs, hrat⟩ := create_review_ok db uid rc nid db2 rv0 hc
          rw [hrun]
          exact ⟨hrevs, hrat⟩
  · intro db uid rid
    cases hc : delete_review db uid rid with
    | error e0 =>
        have hrun : run_delete_review db uid rid = (db, .error e0) := by
          unfold run_delete_review
          rw [hc]
        constructor
        · intro e _
          rw [hrun]
        · intro rv hrv
          rw [hrun] at hrv
          exact absurd hrv (by simp)
    | ok pr =>
        obtain ⟨db2, rv0⟩ := pr
        have hrun : run_delete_review db uid rid = (db2, .ok rv0) := by
          unfold run_delete_review
          rw [hc]
        constructor
        · intro e he
          rw [hrun] at he
          exact absurd he (by simp)
        · intro rv hrv
          rw [hrun] at hrv
          obtain rfl := Except.ok.inj hrv
          obtain ⟨_, hdel, hrat⟩ := delete_review_ok db uid rid db2 rv0 hc
          rw [hrun]
          exact ⟨hdel, hrat⟩

/-- Witness for C2: soft-deleting the only review commits the review flip and
the rating recomputation together. -/
theorem review_mutation_atomic_witness :
    (∀ r ∈ (run_delete_review dbC1 7 1).1.reviews, r.id = 1 →
      r.is_active = false) ∧
    ∀ p ∈ (run_delete_review dbC1 7 1).1.products, p.id = rvC2.product_id →
      p.rating =
        ratingSpec (run_delete_review dbC1 7 1).1.reviews rvC2.product_id :=
  (review_mutation_atomic.2 dbC1 7 1).2 rvC2 rfl

/-- Claim C7: assigning a grade outside [1,5] raises the validation error at
the point of assignment (`validate_grade` errors exactly on out-of-range
values), and a `create_review` request carrying such a grade fails and leaves
the stored state — in particular the review table — unchanged, so no review
with an out-of-range grade is ever persisted. -/
theorem grade_validation_rejects :
    (∀ g : Int,
      validate_grade g = .error "Grade must be between 1 and 5" ↔
        (g < 1 ∨ 5 < g)) ∧
    (∀ db uid rc nid, (rc.grade < 1 ∨ 5 < rc.grade) →
      (run_create_review db uid rc nid).1 = db ∧
      ∀ rv, (run_create_review db uid rc nid).2 ≠ .ok rv) := by
  constructor
  · intro g
    constructor
    · intro h
      by_contra hn
      push_neg at hn
      rw [validate_grade_in_range g hn.1 hn.2] at h
      exact absurd h (by simp)
    · exact validate_grade_out_of_range g
  · intro db uid rc nid hg
    have herr : ∃ e, create_review db uid rc nid = .error e := by
      unfold create_review
      by_cases hp : activeProductExists db rc.product_id
      · rw [if_neg (by simp [hp]), validate_grade_out_of_range rc.grade hg]
        exact ⟨_, rfl⟩
      · rw [if_pos (by simp [hp])]
        exact ⟨_, rfl⟩
    obtain ⟨e, he⟩ := herr
    have hrun : run_create_review db uid rc nid = (db, .error e) := by
      unfold run_create_review
      rw [he]
    rw [hrun]
    exact ⟨rfl, fun rv => by simp⟩

/-- Witness for C7: grades 0 and 6 are rejected, and the create request with
grade 6 leaves the database unchanged and returns no review. -/
theorem grade_validation_witness :
    validate_grade 0 = .error "Grade must be between 1 and 5" ∧
    validate_grade 6 = .error "Grade must be between 1 and 5" ∧
    (run_create_review dbW 7 rcBad 1).1 = dbW ∧
    ∀ rv, (run_create_review dbW 7 rcBad 1).2 ≠ .ok rv :=
  ⟨(grade_validation_rejects.1 0).mpr (by norm_num),
   (grade_validation_rejects.1 6).mpr (by norm_num),
   (grade_validation_rejects.2 dbW 7 rcBad 1 (by decide)).1,
   (grade_validation_rejects.2 dbW 7 rcBad 1 (by decide)).2⟩

/-- `findActiveProduct` returns `none` exactly when no active product row has
the id. -/
lemma findActiveProduct_eq_none_iff (db : DB) (pid : Nat) :
    findActiveProduct db pid = none ↔
      ¬ ∃ p ∈ db.products, p.id = pid ∧ p.is_active = true := by
  unfold findActiveProduct
  rw [List.find?_eq_none]
  simp [Bool.and_eq_true]

/-- What `findActiveProduct` finds: an active member row with the id. -/
lemma findActiveProduct_some (db : DB) (pid : Nat) (p : Product)
    (h : findActiveProduct db pid = some p) :
    p ∈ db.products ∧ p.id = pid ∧ p.is_active = true := by
  unfold findActiveProduct at h
  have hmem := List.mem_of_find?_eq_some h
  have hp := List.find?_some h
  simp only [Bool.and_eq_true, beq_iff_eq] at hp
  exact ⟨hmem, hp.1, hp.2⟩

/-- `activeCategoryExists` holds exactly when an active category row has the
id. -/
lemma activeCategoryExists_iff (db : DB) (cid : Nat) :
    activeCategoryExists db cid = true ↔
      ∃ c ∈ db.categories, c.id = cid ∧ c.is_active = true := by
  unfold activeCategoryExists
  rw [List.any_eq_true]
  simp [Bool.and_eq_true]

/-- Claim C8: `GET /products/{product_id}` returns 404 when no active product
has the id; a product is returned only when it is active and its category is
active; and when the product is found active but its category is missing or
inactive the result is specifically the 400 error. -/
theorem get_product_status_logic (db : DB) (pid : Nat) :
    ((¬ ∃ p ∈ db.products, p.id = pid ∧ p.is_active = true) →
      get_product db pid = .error ⟨404, "Product not found or inactive"⟩) ∧
    (∀ p, get_product db pid = .ok p →
      p ∈ db.products ∧ p.id = pid ∧ p.is_active = true ∧
      ∃ c ∈ db.categories, c.id = p.category_id ∧ c.is_active = true) ∧
    (∀ p, findActiveProduct db pid = some p →
      (¬ ∃ c ∈ db.categories, c.id = p.category_id ∧ c.is_active = true) →
      get_product db pid = .error ⟨400, "Category not found or inactive"⟩) ∧
    (∀ p, findActiveProduct db pid = some p →
      (∃ c ∈ db.categories, c.id = p.category_id ∧ c.is_active = true) →
      get_product db pid = .ok p) := by
  refine ⟨?_, ?_, ?_, ?_⟩
  · intro hno
    have hf : findActiveProduct db pid = none :=
      (findActiveProduct_eq_none_iff db pid).mpr hno
    unfold get_product
    rw [hf]
  · intro p hp
    unfold get_product at hp
    split at hp
    next hf => exact absurd hp (by simp)
    next p0 hf =>
      split at hp
      next hcat =>
        obtain rfl := Except.ok.inj hp
        obtain ⟨hm, hid, hact⟩ := findActiveProduct_some db pid p0 hf
        exact ⟨hm, hid, hact,
          (activeCategoryExists_iff db p0.category_id).mp hcat⟩
      next => exact absurd hp (by simp)
  · intro p hf hnc
    have hcat : activeCategoryExists db p.category_id = false := by
      cases hb : activeCategoryExists db p.category_id
      · rfl
      · exact absurd ((activeCategoryExists_iff db p.category_id).mp hb) hnc
    unfold get_product
    rw [hf]
    simp [hcat]
  · intro p hf hc
    have hcat : activeCategoryExists db p.category_id = true :=
      (activeCategoryExists_iff db p.category_id).mpr hc
    unfold get_product
    rw [hf]
    simp [hcat]

/-- Witness for C8: an active product whose category is inactive yields the
400 error. -/
theorem get_product_status_witness :
    get_product db8 1 = .error ⟨400, "Category not found or inactive"⟩ :=
  (get_product_status_logic db8 1).2.2.1 prodW rfl (by decide)

/-- Claim C9: for `update_product` and `delete_product` acting as seller
`uid`: when no active product has the id (the first conjunct ties this to
`findActiveProduct` returning `none`) both endpoints fail 404; when the
active product exists but is owned by a different seller both fail 403 —
an error distinct from 404 — leaving the database unchanged; and when the
owner updates towards a missing or inactive category the update fails 400,
also leaving the database unchanged. -/
theorem product_update_delete_permission_errors (engine : FtsEngine) (db : DB)
    (uid pid : Nat) (pc : ProductCreate) :
    (findActiveProduct db pid = none ↔
      ¬ ∃ p ∈ db.products, p.id = pid ∧ p.is_active = true) ∧
    (findActiveProduct db pid = none →
      run_update_product engine db uid pid pc =
        (db, .error ⟨404, "Product not found"⟩) ∧
      run_delete_product db uid pid =
        (db, .error ⟨404, "Product not found or innactive"⟩)) ∧
    (∀ p, findActiveProduct db pid = some p → p.seller_id ≠ uid →
      run_update_product engine db uid pid pc =
        (db, .error ⟨403, "You can only update your own products"⟩) ∧
      run_delete_product db uid pid =
        (db, .error ⟨403, "You can only delete your own proucts"⟩)) ∧
    (∀ p, findActiveProduct db pid = some p → p.seller_id = uid →
      activeCategoryExists db pc.category_id = false →
      run_update_product engine db uid pid pc =
        (db, .error ⟨400, "Category not found or inactive"⟩)) := by
  refine ⟨findActiveProduct_eq_none_iff db pid, ?_, ?_, ?_⟩
  · intro hf
    constructor
    · unfold run_update_product update_product
      rw [hf]
    · unfold run_delete_product delete_product
      rw [hf]
  · intro p hf hne
    have hbne : (p.seller_id != uid) = true := bne_iff_ne.mpr hne
    constructor
    · unfold run_update_product update_product
      rw [hf]
      simp only [hbne]
      rfl
    · unfold run_delete_product delete_product
      rw [hf]
      simp only [hbne]
      rfl
  · intro p hf heq hcat
    have hbne : (p.seller_id != uid) = false := by
      simp [heq]
    unfold run_update_product update_product
    rw [hf]
    simp only [hbne, hcat]
    rfl

/-- Witness for C9: seller 9 acting on seller 7's active product receives 403
from both endpoints and the database is unchanged. -/
theorem product_permission_witness :
    run_update_product engW dbW 9 1 pcW =
      (dbW, .error ⟨403, "You can only update your own products"⟩) ∧
    run_delete_product dbW 9 1 =
      (dbW, .error ⟨403, "You can only delete your own proucts"⟩) :=
  (product_update_delete_permission_errors engW dbW 9 1 pcW).2.2.1 prodW rfl
    (by decide)
